import Mathlib

/-!
Verification development for the "Futuristic Corp MVP API" service
(`src/main.py`): a small content/catalog HTTP API over an optional
document store, with hardcoded fallback data.

We shallowly embed the JSON-ish document values, the pydantic models
(`Section`, `Page`, `Product`, `Lead`), and the route handlers
(`get_page`, `list_products`, `get_product`, `create_lead`) as
executable Lean functions, and prove the specified behaviors.

Storage is modelled by `DbState`: absent (no client object, mirroring
`_db_available()` returning false), erroring (a client exists but every
query raises, which the handlers swallow via `except Exception: pass`),
or ready with concrete collections. Pydantic's lax scalar coercions of
mistyped present fields (e.g. numeric strings for `int`) are not
modelled; a present field must carry the matching JSON shape, a missing
optional field takes its declared default.
-/

namespace FuturisticApi

/-- JSON-like document values stored in and returned by the service. -/
inductive Value where
  | str : String → Value
  | num : Int → Value
  | bool : Bool → Value
  | null : Value
  | arr : List Value → Value
  | obj : List (String × Value) → Value
deriving Repr

/-- A document: an ordered association list of fields, as a Python dict. -/
abbrev Doc := List (String × Value)

/-- `d.get(k)` / `d[k]`: first field named `k`, if any. -/
def getField (d : Doc) (k : String) : Option Value :=
  (d.find? (fun kv => kv.1 == k)).map (fun kv => kv.2)

/-- `k in d`. -/
def hasField (d : Doc) (k : String) : Bool :=
  (getField d k).isSome

/-- `d[k] = v`: replace the existing field in place, else append it. -/
def setField (d : Doc) (k : String) (v : Value) : Doc :=
  if hasField d k then d.map (fun kv => if kv.1 == k then (k, v) else kv)
  else d ++ [(k, v)]

/-- The `{"_id": 0}` Mongo projection: drop the internal identifier. -/
def eraseId (d : Doc) : Doc :=
  d.filter (fun kv => kv.1 != "_id")

/-- Whether a document's `slug` field is the given string (the
`{"slug": slug}` filter, and the `p["slug"] == slug` loop test). -/
def slugMatches (d : Doc) (slug : String) : Bool :=
  match getField d "slug" with
  | some (Value.str s) => s == slug
  | _ => false

/-- `find_one({"slug": slug})` over a collection, and the Python
`for p in ...: if p["slug"] == slug` loop: first matching document. -/
def findBySlug : List Doc → String → Option Doc
  | [], _ => none
  | d :: ds, slug => if slugMatches d slug then some d else findBySlug ds slug

/-! ## Pydantic models -/

/-- The `Section` pydantic model: `type: str`, `data: Dict = {}`,
`position: int = 0`, `is_visible: bool = True`. -/
structure SectionM where
  type : String
  data : Doc
  position : Int
  is_visible : Bool
deriving Repr

/-- Validate an optional field that must be a string when present. -/
def fieldStr? : Option Value → Option String
  | some (Value.str s) => some s
  | _ => none

/-- Validate a mapping field defaulting to `{}` when missing. -/
def fieldObjD : Option Value → Option Doc
  | none => some []
  | some (Value.obj o) => some o
  | _ => none

/-- Validate an integer field defaulting to `0` when missing. -/
def fieldIntD : Option Value → Option Int
  | none => some 0
  | some (Value.num n) => some n
  | _ => none

/-- Validate a boolean field defaulting to `True` when missing. -/
def fieldBoolD : Option Value → Option Bool
  | none => some true
  | some (Value.bool b) => some b
  | _ => none

/-- `Section(**s)`: pydantic validation of a section mapping. `type` is
required; `data`, `position`, `is_visible` take their defaults when
missing. `none` models a raised `ValidationError`. -/
def sectionOfDict (d : Doc) : Option SectionM :=
  match fieldStr? (getField d "type"), fieldObjD (getField d "data"),
        fieldIntD (getField d "position"), fieldBoolD (getField d "is_visible") with
  | some t, some dat, some pos, some vis => some ⟨t, dat, pos, vis⟩
  | _, _, _, _ => none

/-- `Section.model_dump()`: fields in model declaration order. -/
def sectionDump (s : SectionM) : Doc :=
  [("type", Value.str s.type), ("data", Value.obj s.data),
   ("position", Value.num s.position), ("is_visible", Value.bool s.is_visible)]

/-- The `Page` pydantic model. -/
structure PageM where
  title : String
  slug : String
  status : String
  locale : String
  sections : List SectionM
deriving Repr

/-- `Page.model_dump()`. -/
def pageDump (p : PageM) : Doc :=
  [("title", Value.str p.title), ("slug", Value.str p.slug),
   ("status", Value.str p.status), ("locale", Value.str p.locale),
   ("sections", Value.arr (p.sections.map (fun s => Value.obj (sectionDump s))))]

/-- The `Product` pydantic model (prices in the repo are integral, so
`price` is carried as `Int`). -/
structure ProductM where
  name : String
  slug : String
  sku : Option String
  short_desc : Option String
  price : Option Int
  currency : Option String
  specs : Doc
  category : Option String
  model_3d_url : Option String
  images : List String
deriving Repr

/-- Dump an optional string field (`None` → JSON null). -/
def optStr : Option String → Value
  | some s => Value.str s
  | none => Value.null

/-- Dump an optional numeric field (`None` → JSON null). -/
def optNum : Option Int → Value
  | some n => Value.num n
  | none => Value.null

/-- `Product.model_dump()`. -/
def productDump (p : ProductM) : Doc :=
  [("name", Value.str p.name), ("slug", Value.str p.slug), ("sku", optStr p.sku),
   ("short_desc", optStr p.short_desc), ("price", optNum p.price),
   ("currency", optStr p.currency), ("specs", Value.obj p.specs),
   ("category", optStr p.category), ("model_3d_url", optStr p.model_3d_url),
   ("images", Value.arr (p.images.map Value.str))]

/-- The `Lead` pydantic model: `name`, `email` required strings, the
rest optional with `source` defaulting to `"website"`. -/
structure LeadM where
  name : String
  email : String
  phone : Option String
  company : Option String
  message : Option String
  product_slug : Option String
  source : Option String
deriving Repr

/-- `Lead.model_dump()`. -/
def leadDump (l : LeadM) : Doc :=
  [("name", Value.str l.name), ("email", Value.str l.email),
   ("phone", optStr l.phone), ("company", optStr l.company),
   ("message", optStr l.message), ("product_slug", optStr l.product_slug),
   ("source", optStr l.source)]

/-- A required string field of the request body: present and a string,
else validation fails. -/
def reqStr (d : Doc) (k : String) : Option String :=
  match getField d k with
  | some (Value.str s) => some s
  | _ => none

/-- An `Optional[str]` field with default `dflt`: missing takes the
default, JSON null gives `None`, a string is kept, anything else fails. -/
def optStrField (d : Doc) (k : String) (dflt : Option String) : Option (Option String) :=
  match getField d k with
  | none => some dflt
  | some Value.null => some none
  | some (Value.str s) => some (some s)
  | _ => none

/-- FastAPI body validation of `Lead` from a JSON object: `some` is a
successfully validated model, `none` a 422 validation rejection.
Unknown extra fields are ignored, as in pydantic's default config. -/
def leadParse (d : Doc) : Option LeadM :=
  match reqStr d "name", reqStr d "email", optStrField d "phone" none,
        optStrField d "company" none, optStrField d "message" none,
        optStrField d "product_slug" none, optStrField d "source" (some "website") with
  | some n, some e, some ph, some co, some ms, some ps, some sr =>
      some ⟨n, e, ph, co, ms, ps, sr⟩
  | _, _, _, _, _, _, _ => none

/-! ## Storage model -/

/-- The document store's collections relevant to the read paths. -/
structure Storage where
  pages : List Doc
  products : List Doc

/-- Observable storage states. `absent`: `_db_available()` is false (the
`database` module is missing or `db is None`). `erroring`: a client
object exists but every query raises; the handlers catch this with
`except Exception: pass`. `ready`: queries succeed against the given
collections. -/
inductive DbState where
  | absent : DbState
  | erroring : DbState
  | ready : Storage → DbState

/-- A route handler's outcome: a returned JSON object, or
`HTTPException(status_code=404)`. -/
inductive Resp where
  | ok : Doc → Resp
  | notFound : Resp
deriving Repr

/-! ## CMS endpoints -/

/-- The hero section built by `default_homepage()`. -/
def heroSection : SectionM :=
  { type := "hero_spline"
    position := 0
    is_visible := true
    data :=
      [("headline", Value.str "Engineered Excellence. Delivered Globally."),
       ("subheadline", Value.str "A premium, cinematic 3D experience for a global technology group."),
       ("cta", Value.obj [("label", Value.str "Explore Verticals"), ("href", Value.str "#verticals")]),
       ("splineUrl", Value.str "https://prod.spline.design/EF7JOSsHLk16Tlw9/scene.splinecode")] }

/-- The feature-grid section built by `default_homepage()`. -/
def verticalsSection : SectionM :=
  { type := "feature_grid"
    position := 1
    is_visible := true
    data :=
      [("id", Value.str "verticals"),
       ("title", Value.str "Business Verticals"),
       ("items", Value.arr
         [Value.obj [("title", Value.str "Payment Devices"),
                     ("subtitle", Value.str "POS, Tap & Pay, QR"),
                     ("icon", Value.str "CreditCard")],
          Value.obj [("title", Value.str "Smart Home & IoT"),
                     ("subtitle", Value.str "AI cameras, locks, sensors"),
                     ("icon", Value.str "Cpu")],
          Value.obj [("title", Value.str "Mobile Accessories"),
                     ("subtitle", Value.str "GaN chargers, power banks"),
                     ("icon", Value.str "BatteryCharging")],
          Value.obj [("title", Value.str "R&D & Manufacturing"),
                     ("subtitle", Value.str "Vertically integrated"),
                     ("icon", Value.str "Factory")]])] }

/-- `default_homepage()`: the built-in fallback Page for slug `home`
(`status`/`locale` take their model defaults). -/
def default_homepage : PageM :=
  { title := "Home", slug := "home", status := "published", locale := "en"
    sections := [heroSection, verticalsSection] }

/-- `doc.get("sections", [])` followed by Python iteration: an array
iterates its elements; a string iterates its one-character substrings; a
mapping iterates its keys; a missing field iterates the empty default;
iterating any other value raises (`none`). -/
def getSections (d : Doc) : Option (List Value) :=
  match getField d "sections" with
  | none => some []
  | some (Value.arr xs) => some xs
  | some (Value.str s) => some (s.data.map (fun c => Value.str (String.mk [c])))
  | some (Value.obj o) => some (o.map (fun kv => Value.str kv.1))
  | some _ => none

/-- One element of the section list comprehension:
`Section(**s).model_dump() if isinstance(s, dict) else s`. `none` models
a `ValidationError` raised inside the comprehension. -/
def normalizeSectionItem : Value → Option Value
  | Value.obj d => (sectionOfDict d).map (fun s => Value.obj (sectionDump s))
  | v => some v

/-- The body of `get_page`'s found-document branch: rebuild
`doc["sections"]` from the normalized section list. `none` models any
exception raised while doing so (caught by the surrounding `try`). -/
def pageNormalize (doc : Doc) : Option Doc :=
  match getSections doc with
  | none => none
  | some secs =>
    match secs.mapM normalizeSectionItem with
    | none => none
    | some out => some (setField doc "sections" (Value.arr out))

/-- `get_page`'s code after the `try` block: the fallback default. -/
def pageFallback (slug : String) : Resp :=
  if slug = "home" then Resp.ok (pageDump default_homepage) else Resp.notFound

/-- `GET /api/pages/{slug}` (`get_page`). Any storage failure, missing
document, or exception during section normalization falls through to
`pageFallback`. -/
def get_page (db : DbState) (slug : String) : Resp :=
  match db with
  | DbState.ready s =>
    match findBySlug s.pages slug with
    | some doc =>
      match pageNormalize doc with
      | some doc2 => Resp.ok doc2
      | none => pageFallback slug
    | none => pageFallback slug
  | _ => pageFallback slug

/-! ## Product endpoints -/

/-- First default product of `_default_products()`. -/
def posProX : ProductM :=
  { name := "POS Pro X", slug := "pos-pro-x", sku := some "POS-PRO-X"
    short_desc := some "Rugged POS with NFC & printer", price := some 399
    currency := some "USD", specs := [], category := some "payment"
    model_3d_url := none, images := ["/images/pos-pro-x.jpg"] }

/-- Second default product of `_default_products()`. -/
def gan30w : ProductM :=
  { name := "GaN Charger 30W", slug := "gan-30w", sku := some "GAN-30W"
    short_desc := some "Ultra-compact fast charger", price := some 29
    currency := some "USD", specs := [], category := some "accessories"
    model_3d_url := none, images := ["/images/gan-30w.jpg"] }

/-- Third default product of `_default_products()`. -/
def aiCamS1 : ProductM :=
  { name := "AI Camera S1", slug := "ai-cam-s1", sku := some "AI-CAM-S1"
    short_desc := some "Smart AI security camera", price := some 99
    currency := some "USD", specs := [], category := some "smarthome"
    model_3d_url := none, images := ["/images/ai-cam-s1.jpg"] }

/-- `_default_products()`: the three dumped fallback products. -/
def default_products : List Doc :=
  [productDump posProX, productDump gan30w, productDump aiCamS1]

/-- `GET /api/products` (`list_products`): the successful query's items
(projected) when nonempty, else the defaults; wrapped as `{"items": ...}`. -/
def list_products (db : DbState) : Doc :=
  match db with
  | DbState.ready s =>
    let items := s.products.map eraseId
    if items.isEmpty then [("items", Value.arr (default_products.map Value.obj))]
    else [("items", Value.arr (items.map Value.obj))]
  | _ => [("items", Value.arr (default_products.map Value.obj))]

/-- `get_product`'s code after the `try` block: scan the default
products for the slug, else raise 404. -/
def productFallback (slug : String) : Resp :=
  match findBySlug default_products slug with
  | some p => Resp.ok p
  | none => Resp.notFound

/-- `GET /api/products/{slug}` (`get_product`). The stored lookup uses
the `{"_id": 0}` projection; any storage failure or missing document
falls through to `productFallback`. -/
def get_product (db : DbState) (slug : String) : Resp :=
  match db with
  | DbState.ready s =>
    match findBySlug s.products slug with
    | some item => Resp.ok (eraseId item)
    | none => productFallback slug
  | _ => productFallback slug

/-! ## Lead endpoint -/

/-- `POST /api/leads` (`create_lead`) on an already-validated `Lead`.
The first component is the HTTP response body, built the same way on
every path; the second records whether `create_document` persisted the
lead (the write is attempted only when storage is available, and its
failure is swallowed). -/
def create_lead (db : DbState) (lead : LeadM) : Doc × Bool :=
  ([("status", Value.str "ok"), ("message", Value.str "Lead received"),
    ("lead", Value.obj (leadDump lead))],
   match db with
   | DbState.ready _ => true
   | _ => false)

/-! ## Helper lemmas -/

/-- No slug other than the three defaults matches any default product. -/
lemma findBySlug_defaults_none (slug : String)
    (h1 : slug ≠ "pos-pro-x") (h2 : slug ≠ "gan-30w") (h3 : slug ≠ "ai-cam-s1") :
    findBySlug default_products slug = none := by
  have e1 : (("pos-pro-x" : String) == slug) = false := beq_eq_false_iff_ne.mpr (Ne.symm h1)
  have e2 : (("gan-30w" : String) == slug) = false := beq_eq_false_iff_ne.mpr (Ne.symm h2)
  have e3 : (("ai-cam-s1" : String) == slug) = false := beq_eq_false_iff_ne.mpr (Ne.symm h3)
  show (if ("pos-pro-x" : String) == slug then some (productDump posProX)
        else if ("gan-30w" : String) == slug then some (productDump gan30w)
        else if ("ai-cam-s1" : String) == slug then some (productDump aiCamS1)
        else none) = none
  rw [e1, e2, e3]
  rfl

/-- The `{"_id": 0}` projection removes the identifier field. -/
lemma getField_eraseId_id (d : Doc) : getField (eraseId d) "_id" = none := by
  induction d with
  | nil => rfl
  | cons kv ds ih =>
    by_cases h : kv.1 = "_id"
    · have hdrop : eraseId (kv :: ds) = eraseId ds := by
        simp [eraseId, List.filter_cons, h]
      rw [hdrop]; exact ih
    · have hkeep : eraseId (kv :: ds) = kv :: eraseId ds := by
        simp [eraseId, List.filter_cons, h]
      rw [hkeep]
      unfold getField
      rw [List.find?_cons_of_neg]
      · exact ih
      · simp [h]

/-- Replacing field `k` in place leaves every other field unchanged. -/
lemma getField_map_setKey (d : Doc) (k k' : String) (v : Value) (h : k' ≠ k) :
    getField (d.map (fun kv => if kv.1 == k then (k, v) else kv)) k' = getField d k' := by
  induction d with
  | nil => rfl
  | cons kv ds ih =>
    by_cases hk : kv.1 = k
    · have hrw : (if kv.1 == k then (k, v) else kv) = (k, v) := by simp [hk]
      simp only [List.map_cons, hrw]
      unfold getField
      rw [List.find?_cons_of_neg, List.find?_cons_of_neg]
      · exact ih
      · simp [hk, Ne.symm h]
      · simp [Ne.symm h]
    · have hrw : (if kv.1 == k then (k, v) else kv) = kv := by simp [hk]
      simp only [List.map_cons, hrw]
      by_cases hk' : kv.1 = k'
      · unfold getField
        rw [List.find?_cons_of_pos, List.find?_cons_of_pos] <;> simp [hk']
      · unfold getField
        rw [List.find?_cons_of_neg, List.find?_cons_of_neg]
        · exact ih
        · simp [hk']
        · simp [hk']

/-- Appending a fresh field `k` leaves every other field unchanged. -/
lemma getField_append_single (d : Doc) (k k' : String) (v : Value) (h : k' ≠ k) :
    getField (d ++ [(k, v)]) k' = getField d k' := by
  induction d with
  | nil =>
    unfold getField
    have hb : (k == k') = false := beq_eq_false_iff_ne.mpr (Ne.symm h)
    simp [List.find?, hb]
  | cons kv ds ih =>
    by_cases hk' : kv.1 = k'
    · unfold getField
      rw [List.cons_append, List.find?_cons_of_pos, List.find?_cons_of_pos] <;> simp [hk']
    · unfold getField
      rw [List.cons_append, List.find?_cons_of_neg, List.find?_cons_of_neg]
      · exact ih
      · simp [hk']
      · simp [hk']

/-- `d[k] = v` leaves every other field unchanged. -/
lemma getField_setField_ne (d : Doc) (k k' : String) (v : Value) (h : k' ≠ k) :
    getField (setField d k v) k' = getField d k' := by
  unfold setField
  by_cases hf : hasField d k
  · rw [if_pos hf]; exact getField_map_setKey d k k' v h
  · rw [if_neg hf]; exact getField_append_single d k k' v h

/-- A successfully normalized page document is the stored document with
only its `sections` field rebuilt. -/
lemma pageNormalize_shape (doc doc' : Doc) (h : pageNormalize doc = some doc') :
    ∃ out, doc' = setField doc "sections" (Value.arr out) := by
  unfold pageNormalize at h
  split at h
  · cases h
  · split at h
    · cases h
    · exact ⟨_, (Option.some.inj h).symm⟩

/-- A validated lead's `source` is exactly what the `source` field
validator produced. -/
lemma leadParse_source (d : Doc) (l : LeadM) (hp : leadParse d = some l) :
    optStrField d "source" (some "website") = some l.source := by
  unfold leadParse at hp
  split at hp
  · rename_i n e ph co ms ps sr hn he hph hco hms hps hsr
    cases hp
    exact hsr
  · cases hp

/-- Fields the section mapping omits are filled with their declared
defaults by `Section(**s)`. -/
lemma sectionOfDict_fields (sd : Doc) (t : String) (sec : SectionM)
    (ht : getField sd "type" = some (Value.str t))
    (hsec : sectionOfDict sd = some sec) :
    sec.type = t ∧
    (getField sd "data" = none → sec.data = []) ∧
    (getField sd "position" = none → sec.position = 0) ∧
    (getField sd "is_visible" = none → sec.is_visible = true) := by
  unfold sectionOfDict at hsec
  rw [ht] at hsec
  split at hsec
  · rename_i t' dat pos vis ht' hdat hpos hvis
    cases hsec
    refine ⟨(Option.some.inj (show some t = some t' from ht')).symm, ?_, ?_, ?_⟩
    · intro hd
      rw [hd] at hdat
      exact (Option.some.inj (show some ([] : Doc) = some dat from hdat)).symm
    · intro hp
      rw [hp] at hpos
      exact (Option.some.inj (show some (0 : Int) = some pos from hpos)).symm
    · intro hv
      rw [hv] at hvis
      exact (Option.some.inj (show some true = some vis from hvis)).symm
  · cases hsec

/-- A section mapping without a `type` field fails validation. -/
lemma sectionOfDict_no_type (sd : Doc) (h : getField sd "type" = none) :
    sectionOfDict sd = none := by
  unfold sectionOfDict
  rw [h]
  rfl

/-- A mapping element of `doc["sections"]` goes through `Section(**s)`
and is replaced by the dump of the validated model. -/
lemma normalizeSectionItem_obj (sd : Doc) (sec : SectionM)
    (h : sectionOfDict sd = some sec) :
    normalizeSectionItem (Value.obj sd) = some (Value.obj (sectionDump sec)) := by
  show Option.map (fun s => Value.obj (sectionDump s)) (sectionOfDict sd) =
    some (Value.obj (sectionDump sec))
  rw [h]
  rfl

/-! ## Concrete fixtures used by counterexamples and witnesses -/

/-- A stored page document carrying its internal `_id`, as
`find_one` without a projection returns it. -/
def aboutStoredDoc : Doc :=
  [("_id", Value.num 7), ("slug", Value.str "about"), ("title", Value.str "About")]

/-- What `get_page` hands back for `aboutStoredDoc`: the same document
with the normalized (empty) section list appended. -/
def aboutReturnedDoc : Doc :=
  [("_id", Value.num 7), ("slug", Value.str "about"), ("title", Value.str "About"),
   ("sections", Value.arr [])]

/-- A storage state holding only the `about` page. -/
def aboutStorage : Storage := { pages := [aboutStoredDoc], products := [] }

/-- A stored product document carrying its internal `_id`. -/
def widgetStoredDoc : Doc :=
  [("_id", Value.num 5), ("slug", Value.str "widget"), ("name", Value.str "Widget")]

/-- A storage state holding only the `widget` product. -/
def widgetStorage : Storage := { pages := [], products := [widgetStoredDoc] }

/-- The lead-intake request body `{name: "A", email: "a@b.com"}`. -/
def leadDocA : Doc := [("name", Value.str "A"), ("email", Value.str "a@b.com")]

/-- The validated model for `leadDocA`. -/
def leadA : LeadM :=
  { name := "A", email := "a@b.com", phone := none, company := none
    message := none, product_slug := none, source := some "website" }

/-- The validated model for a body whose `name` and `email` are empty
strings. -/
def emptyLead : LeadM :=
  { name := "", email := "", phone := none, company := none
    message := none, product_slug := none, source := some "website" }

/-- A fully populated validated lead. -/
def fullLead : LeadM :=
  { name := "A", email := "a@b.com", phone := some "1", company := some "Co"
    message := some "hi", product_slug := some "gan-30w", source := some "ads" }

/-! ## Claim theorems -/

/-- Claim C1, counterexample: product resolution does have a privileged
fallback — with storage absent, slug `gan-30w` matches no stored
document yet the handler answers with a default product, not 404. -/
theorem C1_counterexample_gan30w_fallback :
    get_product DbState.absent "gan-30w" ≠ Resp.notFound := by
  have h : get_product DbState.absent "gan-30w" = Resp.ok (productDump gan30w) := rfl
  rw [h]
  intro hc
  exact Resp.noConfusion hc

/-- Claim C1 (amended): for every slug outside the three built-in
default slugs (`pos-pro-x`, `gan-30w`, `ai-cam-s1`), when no matching
stored product document exists — storage absent, erroring, or the
document not present — `GET /api/products/{slug}` fails with
NotFound (404). -/
theorem C1_unknown_product_slug_not_found (slug : String)
    (hs : slug ∉ ["pos-pro-x", "gan-30w", "ai-cam-s1"]) :
    get_product DbState.absent slug = Resp.notFound ∧
    get_product DbState.erroring slug = Resp.notFound ∧
    ∀ s : Storage, findBySlug s.products slug = none →
      get_product (DbState.ready s) slug = Resp.notFound := by
  simp only [List.mem_cons, List.mem_singleton, not_or] at hs
  obtain ⟨h1, h2, h3, -⟩ := hs
  have hff : findBySlug default_products slug = none :=
    findBySlug_defaults_none slug h1 h2 h3
  have hfb : productFallback slug = Resp.notFound := by
    unfold productFallback
    rw [hff]
  refine ⟨hfb, hfb, ?_⟩
  intro s hnone
  simp only [get_product, hnone]
  exact hfb

/-- Witness for C1 at the concrete slug `smart-lock`. -/
theorem C1_unknown_product_slug_not_found_witness :
    get_product DbState.absent "smart-lock" = Resp.notFound ∧
    get_product DbState.erroring "smart-lock" = Resp.notFound ∧
    get_product (DbState.ready ⟨[], []⟩) "smart-lock" = Resp.notFound := by
  obtain ⟨a, b, c⟩ := C1_unknown_product_slug_not_found "smart-lock" (by decide)
  exact ⟨a, b, c ⟨[], []⟩ rfl⟩

/-- Claim C2, counterexample: the page read has no `{"_id": 0}`
projection — a stored page document carrying `_id` is returned to the
caller with `_id` still present. -/
theorem C2_counterexample_page_keeps_id :
    get_page (DbState.ready aboutStorage) "about" = Resp.ok aboutReturnedDoc ∧
    hasField aboutReturnedDoc "_id" = true :=
  ⟨rfl, rfl⟩

/-- Claim C2 (amended): product resolution queries by slug and projects
out the internal storage identifier, so the returned product document
never contains `_id`; page resolution queries by slug but returns the
stored document without removing `_id` (the identifier survives
verbatim through section normalization). -/
theorem C2_projection_products_only :
    (∀ (s : Storage) (slug : String) (item : Doc),
        findBySlug s.products slug = some item →
        get_product (DbState.ready s) slug = Resp.ok (eraseId item) ∧
        hasField (eraseId item) "_id" = false) ∧
    (∀ (s : Storage) (slug : String) (doc doc' : Doc),
        findBySlug s.pages slug = some doc → pageNormalize doc = some doc' →
        get_page (DbState.ready s) slug = Resp.ok doc' ∧
        getField doc' "_id" = getField doc "_id") := by
  constructor
  · intro s slug item hf
    constructor
    · simp only [get_product, hf]
    · unfold hasField
      rw [getField_eraseId_id]
      rfl
  · intro s slug doc doc' hf hn
    constructor
    · simp only [get_page, hf, hn]
    · obtain ⟨out, rfl⟩ := pageNormalize_shape doc doc' hn
      exact getField_setField_ne doc "sections" "_id" (Value.arr out) (by decide)

/-- Witness for C2 on concrete one-document storages. -/
theorem C2_projection_products_only_witness :
    (get_product (DbState.ready widgetStorage) "widget" = Resp.ok (eraseId widgetStoredDoc) ∧
     hasField (eraseId widgetStoredDoc) "_id" = false) ∧
    (get_page (DbState.ready aboutStorage) "about" = Resp.ok aboutReturnedDoc ∧
     getField aboutReturnedDoc "_id" = getField aboutStoredDoc "_id") := by
  obtain ⟨p1, p2⟩ := C2_projection_products_only
  exact ⟨p1 widgetStorage "widget" widgetStoredDoc rfl,
         p2 aboutStorage "about" aboutStoredDoc aboutReturnedDoc rfl rfl⟩

/-- Claim C3, counterexample: with erroring storage, product slug
`gan-30w` does not produce NotFound (the claim's description of the
no-storage outcome as "NotFound for everything but page `home`" fails on
the default products). -/
theorem C3_counterexample_erroring_product_fallback :
    get_product DbState.erroring "gan-30w" ≠ Resp.notFound := by
  have h : get_product DbState.erroring "gan-30w" = Resp.ok (productDump gan30w) := rfl
  rw [h]
  intro hc
  exact Resp.noConfusion hc

/-- Claim C3 (amended): storage failure is coerced to absence — for
every slug, a page or product resolved with erroring storage gives
exactly the result of resolving with no storage configured, namely the
built-in fallback for page `home` and for the three default product
slugs, and NotFound otherwise; no distinct error kind exists in `Resp`
to be surfaced. -/
theorem C3_storage_failure_coerced_to_absence :
    ∀ slug : String,
      get_page DbState.erroring slug = get_page DbState.absent slug ∧
      get_product DbState.erroring slug = get_product DbState.absent slug ∧
      get_page DbState.absent slug =
        (if slug = "home" then Resp.ok (pageDump default_homepage) else Resp.notFound) ∧
      get_product DbState.absent slug =
        (match findBySlug default_products slug with
         | some p => Resp.ok p
         | none => Resp.notFound) :=
  fun _ => ⟨rfl, rfl, rfl, rfl⟩

/-- Claim C4: the catalog listing never returns an empty item list —
storage absent, storage erroring, and a successful query with zero items
all yield exactly the three-item default list, whose slugs are
`pos-pro-x`, `gan-30w`, `ai-cam-s1`. -/
theorem C4_catalog_never_empty :
    list_products DbState.absent = [("items", Value.arr (default_products.map Value.obj))] ∧
    list_products DbState.erroring = [("items", Value.arr (default_products.map Value.obj))] ∧
    (∀ s : Storage, s.products = [] →
      list_products (DbState.ready s) =
        [("items", Value.arr (default_products.map Value.obj))]) ∧
    default_products.map (fun d => getField d "slug") =
      [some (Value.str "pos-pro-x"), some (Value.str "gan-30w"),
       some (Value.str "ai-cam-s1")] ∧
    default_products.length = 3 := by
  refine ⟨rfl, rfl, ?_, rfl, rfl⟩
  intro s hs
  obtain ⟨pages, products⟩ := s
  dsimp only at hs
  subst hs
  rfl

/-- Witness for C4 with ready storage whose product collection is empty. -/
theorem C4_catalog_never_empty_witness :
    list_products (DbState.ready ⟨[aboutStoredDoc], []⟩) =
      [("items", Value.arr (default_products.map Value.obj))] :=
  C4_catalog_never_empty.2.2.1 ⟨[aboutStoredDoc], []⟩ rfl

/-- Claim C5: with no storage, page slug `home` resolves to the built-in
Page: slug `home`, exactly two sections — a hero section then a
feature-grid section — at positions 0 and 1. -/
theorem C5_default_homepage_shape :
    get_page DbState.absent "home" = Resp.ok (pageDump default_homepage) ∧
    default_homepage.slug = "home" ∧
    default_homepage.sections.length = 2 ∧
    default_homepage.sections.map SectionM.type = ["hero_spline", "feature_grid"] ∧
    default_homepage.sections.map SectionM.position = [0, 1] :=
  ⟨rfl, rfl, rfl, rfl, rfl⟩

/-- Claim C6: for every slug other than `home`, when no matching page
document exists — storage absent, erroring, or the document not
present — `GET /api/pages/{slug}` fails with NotFound (404). -/
theorem C6_unknown_page_slug_not_found (slug : String) (h : slug ≠ "home") :
    get_page DbState.absent slug = Resp.notFound ∧
    get_page DbState.erroring slug = Resp.notFound ∧
    ∀ s : Storage, findBySlug s.pages slug = none →
      get_page (DbState.ready s) slug = Resp.notFound := by
  have hfb : pageFallback slug = Resp.notFound := by
    unfold pageFallback
    rw [if_neg h]
  refine ⟨hfb, hfb, ?_⟩
  intro s hnone
  simp only [get_page, hnone]
  exact hfb

/-- Witness for C6 at the concrete slug `about`. -/
theorem C6_unknown_page_slug_not_found_witness :
    get_page DbState.absent "about" = Resp.notFound ∧
    get_page DbState.erroring "about" = Resp.notFound ∧
    get_page (DbState.ready ⟨[], [widgetStoredDoc]⟩) "about" = Resp.notFound := by
  obtain ⟨a, b, c⟩ := C6_unknown_page_slug_not_found "about" (by decide)
  exact ⟨a, b, c ⟨[], [widgetStoredDoc]⟩ rfl⟩

/-- Claim C7: lead intake always acknowledges success — for every
validated lead, the response body is the same `status: ok` object with
the dumped lead echoed back on every storage state, even though
persistence actually happens only on ready storage; and when the request
body carries no `source` field, the validated lead's source is the
default `website`. -/
theorem C7_lead_intake_always_ok (d : Doc) (l : LeadM) (hp : leadParse d = some l) :
    (∀ db : DbState, (create_lead db l).1 =
      [("status", Value.str "ok"), ("message", Value.str "Lead received"),
       ("lead", Value.obj (leadDump l))]) ∧
    (∀ db db' : DbState, (create_lead db l).1 = (create_lead db' l).1) ∧
    (∀ s : Storage, (create_lead (DbState.ready s) l).2 = true) ∧
    (create_lead DbState.absent l).2 = false ∧
    (create_lead DbState.erroring l).2 = false ∧
    (getField d "source" = none → l.source = some "website") := by
  refine ⟨fun db => rfl, fun db db' => rfl, fun s => rfl, rfl, rfl, ?_⟩
  intro hsrc
  have h7 : optStrField d "source" (some "website") = some (some "website") := by
    unfold optStrField
    rw [hsrc]
  have hs := leadParse_source d l hp
  rw [h7] at hs
  exact (Option.some.inj hs).symm

/-- Witness for C7 on the body `{name: "A", email: "a@b.com"}` (no
`source` supplied). -/
theorem C7_lead_intake_always_ok_witness :
    (create_lead DbState.absent leadA).1 =
      [("status", Value.str "ok"), ("message", Value.str "Lead received"),
       ("lead", Value.obj (leadDump leadA))] ∧
    (create_lead DbState.absent leadA).1 = (create_lead DbState.erroring leadA).1 ∧
    (create_lead (DbState.ready ⟨[], []⟩) leadA).2 = true ∧
    (create_lead DbState.absent leadA).2 = false ∧
    leadA.source = some "website" := by
  obtain ⟨h1, h2, h3, h4, h5, h6⟩ := C7_lead_intake_always_ok leadDocA leadA rfl
  exact ⟨h1 DbState.absent, h2 DbState.absent DbState.erroring, h3 ⟨[], []⟩, h4, h6 rfl⟩

/-- Claim C8: when a stored page document is found, each section record
given as a mapping passes through the `Section` validator — `type` is
required (a mapping without it fails validation, aborting the found
branch), and missing `data`, `position`, `is_visible` fields are filled
with `{}`, `0`, `true` respectively in the page handed back. -/
theorem C8_sections_normalized (s : Storage) (slug : String) (doc doc' : Doc)
    (hf : findBySlug s.pages slug = some doc)
    (hn : pageNormalize doc = some doc') :
    get_page (DbState.ready s) slug = Resp.ok doc' ∧
    (∀ sd : Doc, getField sd "type" = none → sectionOfDict sd = none) ∧
    (∀ (sd : Doc) (t : String) (sec : SectionM),
        getField sd "type" = some (Value.str t) → sectionOfDict sd = some sec →
        sec.type = t ∧
        (getField sd "data" = none → sec.data = []) ∧
        (getField sd "position" = none → sec.position = 0) ∧
        (getField sd "is_visible" = none → sec.is_visible = true) ∧
        normalizeSectionItem (Value.obj sd) = some (Value.obj (sectionDump sec))) := by
  refine ⟨?_, sectionOfDict_no_type, ?_⟩
  · simp only [get_page, hf, hn]
  · intro sd t sec ht hsec
    obtain ⟨a, b, c, d⟩ := sectionOfDict_fields sd t sec ht hsec
    exact ⟨a, b, c, d, normalizeSectionItem_obj sd sec hsec⟩

/-- Witness for C8 on a one-page storage whose stored section mapping
carries only a `type`. -/
theorem C8_sections_normalized_witness :
    get_page (DbState.ready ⟨[[("slug", Value.str "faq"),
        ("sections", Value.arr [Value.obj [("type", Value.str "hero")]])]], []⟩) "faq" =
      Resp.ok [("slug", Value.str "faq"),
        ("sections", Value.arr [Value.obj
          [("type", Value.str "hero"), ("data", Value.obj []),
           ("position", Value.num 0), ("is_visible", Value.bool true)]])] ∧
    sectionOfDict [("position", Value.num 3)] = none ∧
    (⟨"hero", [], 0, true⟩ : SectionM).type = "hero" ∧
    (⟨"hero", [], 0, true⟩ : SectionM).data = [] ∧
    (⟨"hero", [], 0, true⟩ : SectionM).position = 0 ∧
    (⟨"hero", [], 0, true⟩ : SectionM).is_visible = true ∧
    normalizeSectionItem (Value.obj [("type", Value.str "hero")]) =
      some (Value.obj (sectionDump ⟨"hero", [], 0, true⟩)) := by
  obtain ⟨h1, h2, h3⟩ := C8_sections_normalized
    ⟨[[("slug", Value.str "faq"),
       ("sections", Value.arr [Value.obj [("type", Value.str "hero")]])]], []⟩
    "faq"
    [("slug", Value.str "faq"),
     ("sections", Value.arr [Value.obj [("type", Value.str "hero")]])]
    [("slug", Value.str "faq"),
     ("sections", Value.arr [Value.obj
       [("type", Value.str "hero"), ("data", Value.obj []),
        ("position", Value.num 0), ("is_visible", Value.bool true)]])]
    rfl rfl
  obtain ⟨a, b, c, d, e⟩ := h3 [("type", Value.str "hero")] "hero" ⟨"hero", [], 0, true⟩ rfl rfl
  exact ⟨h1, h2 [("position", Value.num 3)] rfl, a, b rfl, c rfl, d rfl, e⟩

/-- Claim C9: with no storage configured, product slug `gan-30w`
resolves to the default product whose price is 29 and currency `USD`. -/
theorem C9_gan30w_default_price :
    get_product DbState.absent "gan-30w" = Resp.ok (productDump gan30w) ∧
    getField (productDump gan30w) "price" = some (Value.num 29) ∧
    getField (productDump gan30w) "currency" = some (Value.str "USD") :=
  ⟨rfl, rfl, rfl⟩

/-- Claim C10: lead validation does not enforce non-emptiness — a body
whose `name` and `email` are empty strings validates and gets the same
`status: ok` acknowledgement with the payload echoed as a fully
populated lead does, while a missing or non-string `name`/`email` field
is rejected. -/
theorem C10_empty_strings_accepted :
    leadParse [("name", Value.str ""), ("email", Value.str "")] = some emptyLead ∧
    (∀ db : DbState, (create_lead db emptyLead).1 =
      [("status", Value.str "ok"), ("message", Value.str "Lead received"),
       ("lead", Value.obj (leadDump emptyLead))]) ∧
    (∀ db : DbState, getField (create_lead db emptyLead).1 "status" =
      getField (create_lead db fullLead).1 "status") ∧
    leadParse [("email", Value.str "a@b.com")] = none ∧
    leadParse [("name", Value.str "A")] = none ∧
    leadParse [("name", Value.num 1), ("email", Value.str "a@b.com")] = none ∧
    leadParse [("name", Value.str "A"), ("email", Value.bool true)] = none :=
  ⟨rfl, fun _ => rfl, fun _ => rfl, rfl, rfl, rfl, rfl⟩

end FuturisticApi
